import Mathlib

set_option maxRecDepth 10000

/-!
Shallow embedding of `generate_routes.py`, a one-file source generator:
for each component name in a fixed list it renders a fixed Dart template
(via Python `string.Template.substitute`) and writes the result to
`<TARGET_DIR>/<name>_page.dart`, printing progress lines.

The embedding models:
* `str_capitalize` — Python `str.capitalize` (first char uppercased, the
  rest lowercased), used at line 59 of the source;
* `Chunk` / `substituteChunks` — `string.Template.substitute`: the template
  is a sequence of literal chunks and placeholder references; substitution
  fails (Python `KeyError`) when a referenced key is unbound;
* `DART_TEMPLATE` — the exact template constant of lines 28-43, parsed into
  chunks (`$preview_file_name`, `$component_name_pascal_case` and
  `${component_name_pascal_case}` are the placeholder occurrences; all other
  text, including Dart braces and `{super.key}`, is literal);
* `FS` — the file-system environment: whether the target directory exists,
  the files on disk (association list, most recent write first), and
  oracles telling which operations the OS lets succeed;
* `genLoop` / `generate_files_with` — the body of `generate_files` (the
  name list made a parameter, as the loop only reads it), recording the
  final file system, the ordered write trace, the console output and the
  propagated error, with Python exception semantics: the first failing
  operation aborts the rest of the run and is surfaced.

Note the source prints `"\\nStarting file generation..."` and
`"\\nFile generation complete!\\n"`: in Python these are the LITERAL two
characters backslash + n, not newlines, and the embedding keeps them so
(`startMsg`, `completeMsg` below contain a real backslash followed by n).
-/

/-- COMPONENTS list from lines 6-20 of the source. -/
def COMPONENTS : List String :=
  ["alert", "badge", "card", "checkbox", "divider", "input", "link",
   "loading", "progress", "radio", "select", "textarea", "toggle"]

/-- TARGET_DIR from line 24: `os.path.join` with the POSIX separator. -/
def TARGET_DIR : String :=
  "examples/deepyr_example/lib/pages/component_routes"

/-- Python `str.capitalize`: first character uppercased, all remaining characters lowercased (line 59, `name.capitalize()`). -/
def str_capitalize (s : String) : String :=
  match s.data with
  | [] => ""
  | c :: cs => String.mk (c.toUpper :: cs.map Char.toLower)

/-- One piece of a parsed `string.Template`: a literal run of text, or a placeholder reference to a key. -/
inductive Chunk where
  | lit : String → Chunk
  | ph : String → Chunk
deriving DecidableEq

/-- Lookup of a key in a substitution mapping (Python dict built at lines 69-73). -/
def lookupKey (m : List (String × String)) (k : String) : Option String :=
  (m.find? (fun e => e.1 == k)).map Prod.snd

/-- Python `Template.substitute`: replace each placeholder by its bound value; `none` models the `KeyError` raised when a referenced key is unbound. -/
def substituteChunks (cs : List Chunk) (m : List (String × String)) : Option String :=
  match cs with
  | [] => some ""
  | Chunk.lit s :: rest => (substituteChunks rest m).map (fun r => s ++ r)
  | Chunk.ph k :: rest =>
    match lookupKey m k with
    | none => none
    | some v => (substituteChunks rest m).map (fun r => v ++ r)

/-- Modelled after the spec words for the success case of rendering: literal textual substitution, each placeholder replaced by its bound value (unbound ones by the empty string, a case the contract excludes). Used to state what `substituteChunks` returns when it succeeds. -/
def literalSubstitution (cs : List Chunk) (m : List (String × String)) : String :=
  match cs with
  | [] => ""
  | Chunk.lit s :: rest => s ++ literalSubstitution rest m
  | Chunk.ph k :: rest => (lookupKey m k).getD "" ++ literalSubstitution rest m

/-- DART_TEMPLATE of lines 28-43, parsed into literal and placeholder chunks exactly as Python `string.Template` scans it. -/
def DART_TEMPLATE : List Chunk :=
  [Chunk.lit "import \x27package:jaspr/jaspr.dart\x27;\nimport \x27../preview/",
   Chunk.ph "preview_file_name",
   Chunk.lit "\x27;\n\n/// The page that showcases the \x60",
   Chunk.ph "component_name_pascal_case",
   Chunk.lit "\x60 component.\n///\n/// This is a simple wrapper component that renders the \x60",
   Chunk.ph "component_name_pascal_case",
   Chunk.lit "Preview\x60,\n/// which contains all the interactive examples and code snippets.\nclass ",
   Chunk.ph "component_name_pascal_case",
   Chunk.lit "Page extends StatelessComponent \x7b\n  const ",
   Chunk.ph "component_name_pascal_case",
   Chunk.lit "Page(\x7bsuper.key\x7d);\n\n  @override\n  Iterable<Component> build(BuildContext context) sync* \x7b\n    yield ",
   Chunk.ph "component_name_pascal_case",
   Chunk.lit "Preview();\n  \x7d\n\x7d\n"]

/-- Generated file name, line 62: `f"{name}_page.dart"`. -/
def file_name (name : String) : String := name ++ "_page.dart"

/-- Referenced preview file name, line 63: `f"{name}_preview.dart"`. -/
def preview_file_name (name : String) : String := name ++ "_preview.dart"

/-- Full path of the generated file, line 66: `os.path.join(TARGET_DIR, file_name)`. -/
def file_path (name : String) : String := TARGET_DIR ++ "/" ++ file_name name

/-- Substitution dictionary built at lines 69-73. -/
def substitutions (name : String) : List (String × String) :=
  [("file_name", file_name name),
   ("preview_file_name", preview_file_name name),
   ("component_name_pascal_case", str_capitalize name)]

/-- Rendering of the template for one name, line 76: `DART_TEMPLATE.substitute(substitutions)`; `none` models a `KeyError`. -/
def renderContent (name : String) : Option String :=
  substituteChunks DART_TEMPLATE (substitutions name)

/-- The rendered content as a total function (rendering in fact never fails; see `renderContent_eq`). -/
def renderTotal (name : String) : String :=
  (renderContent name).getD ""

/-- Errors an operation of the run can raise: a failing `os.makedirs`, a failing file write, or a `KeyError` from `Template.substitute`. -/
inductive IOError where
  | mkdirError : IOError
  | writeError : String → IOError
  | keyError : IOError
deriving DecidableEq

/-- File-system environment: whether TARGET_DIR exists, the files on disk (most recent write first), and oracles saying whether `os.makedirs` and each `open(path, "w").write` succeed. -/
structure FS where
  dirExists : Bool
  files : List (String × String)
  mkdirOk : Bool
  writeOk : String → Bool

/-- Writing a file: `open(file_path, "w")` + `write` replaces any previous content at that path (lines 79-80). -/
def fsWrite (env : FS) (p c : String) : FS :=
  { env with files := (p, c) :: env.files }

/-- Content currently on disk at a path (the most recent write wins). -/
def fsLookup (env : FS) (p : String) : Option String :=
  (env.files.find? (fun e => e.1 == p)).map Prod.snd

/-- Observable outcome of a run: final file system, ordered trace of the writes performed, console output lines, whether `os.makedirs` ran, and the propagated error if an operation failed (Python exception semantics: the run stops there). -/
structure RunOut where
  fs : FS
  writes : List (String × String)
  output : List String
  createdDir : Bool
  err : Option IOError

/-- Console line printed at line 53 after creating the directory. -/
def createdMsg : String := "Created directory: " ++ TARGET_DIR

/-- Console line printed at line 55; the source string is `"\\nStarting..."`, so the printed text begins with the literal characters backslash and n. -/
def startMsg : String := "\\nStarting file generation..."

/-- Console line printed at line 82 for each written file. -/
def perFileMsg (fp : String) : String := "  -> Successfully created " ++ fp

/-- Console line printed at line 84; again the literal characters backslash and n, at both ends. -/
def completeMsg : String := "\\nFile generation complete!\\n"

/-- The for-loop of lines 57-82: for each name render the template and write the file, printing one line per success; the first failing operation aborts the remaining names and propagates. -/
def genLoop (names : List String) (env : FS) : RunOut :=
  match names with
  | [] => { fs := env, writes := [], output := [], createdDir := false, err := none }
  | name :: rest =>
    match renderContent name with
    | none =>
      { fs := env, writes := [], output := [], createdDir := false,
        err := some IOError.keyError }
    | some content =>
      if env.writeOk (file_path name) then
        let r := genLoop rest (fsWrite env (file_path name) content)
        { fs := r.fs,
          writes := (file_path name, content) :: r.writes,
          output := perFileMsg (file_path name) :: r.output,
          createdDir := false,
          err := r.err }
      else
        { fs := env, writes := [], output := [], createdDir := false,
          err := some (IOError.writeError (file_path name)) }

/-- Closing messages: the final print of line 84 runs only when the loop finished without an exception. -/
def completeMsgs : Option IOError → List String
  | none => [completeMsg]
  | some _ => []

/-- The body of `generate_files` (lines 46-84) with the name list as a parameter: create TARGET_DIR if missing (printing a line), print the start banner, run the loop, and print the completion banner unless an error aborted the run. -/
def generate_files_with (names : List String) (env : FS) : RunOut :=
  if env.dirExists then
    let r := genLoop names env
    { fs := r.fs, writes := r.writes,
      output := startMsg :: r.output ++ completeMsgs r.err,
      createdDir := false, err := r.err }
  else if env.mkdirOk then
    let r := genLoop names { env with dirExists := true }
    { fs := r.fs, writes := r.writes,
      output := createdMsg :: startMsg :: r.output ++ completeMsgs r.err,
      createdDir := true, err := r.err }
  else
    { fs := env, writes := [], output := [], createdDir := false,
      err := some IOError.mkdirError }

/-- The zero-argument entry point `generate_files` itself, over the hardcoded COMPONENTS list. -/
def generate_files (env : FS) : RunOut :=
  generate_files_with COMPONENTS env

/-- Environment in which every file-system operation succeeds. -/
def okEnv (env : FS) : Prop :=
  env.mkdirOk = true ∧ ∀ p, env.writeOk p = true

/-- Decidable check that a character list occurs contiguously inside another. -/
def containsSlice (pat : List Char) : List Char → Bool
  | [] => pat.isEmpty
  | c :: rest => pat.isPrefixOf (c :: rest) || containsSlice pat rest

/-- Split a character list into its lines at newline characters. -/
def splitLines : List Char → List (List Char)
  | [] => [[]]
  | c :: rest =>
    if c = '\n' then [] :: splitLines rest
    else
      match splitLines rest with
      | [] => [[c]]
      | l :: ls => (c :: l) :: ls

/-- Expected final file system after writing the file of every name in order. -/
def writeAll (env : FS) (names : List String) : FS :=
  names.foldl (fun fs n => fsWrite fs (file_path n) (renderTotal n)) env

/-- The file-system environment after the directory-creation step of lines 51-53 (when it succeeds). -/
def envDir (env : FS) : FS :=
  if env.dirExists then env else { env with dirExists := true }

/-- Concrete environment: TARGET_DIR exists, empty disk, every operation succeeds. -/
def envReady : FS :=
  { dirExists := true, files := [], mkdirOk := true, writeOk := fun _ => true }

/-- Concrete environment: TARGET_DIR missing, one unrelated file on disk, every operation succeeds. -/
def envFresh : FS :=
  { dirExists := false, files := [("notes.txt", "keep me")], mkdirOk := true,
    writeOk := fun _ => true }

/-- Concrete environment: TARGET_DIR exists with one unrelated file inside it, every operation succeeds. -/
def envKeep : FS :=
  { dirExists := true,
    files := [("examples/deepyr_example/lib/pages/component_routes/notes.txt", "keep me")],
    mkdirOk := true, writeOk := fun _ => true }

/-- Concrete environment: writing the card page is denied, everything else succeeds. -/
def envDenyCard : FS :=
  { dirExists := true, files := [], mkdirOk := true,
    writeOk := fun p => !(p == file_path "card") }

/-- Concrete environment: TARGET_DIR missing and creating it is denied. -/
def envNoMkdir : FS :=
  { dirExists := false, files := [], mkdirOk := false, writeOk := fun _ => true }

theorem renderContent_eq (name : String) :
    renderContent name = some (renderTotal name) := rfl

theorem fsWrite_writeOk (env : FS) (p c : String) :
    (fsWrite env p c).writeOk = env.writeOk := rfl

theorem fsLookup_fsWrite_self (env : FS) (p c : String) :
    fsLookup (fsWrite env p c) p = some c := by
  simp [fsLookup, fsWrite, List.find?]

theorem fsLookup_fsWrite_ne (env : FS) (p q c : String) (h : p ≠ q) :
    fsLookup (fsWrite env q c) p = fsLookup env p := by
  have hb : (q == p) = false := beq_eq_false_iff_ne.mpr (Ne.symm h)
  simp [fsLookup, fsWrite, List.find?, hb]

theorem file_name_inj {a b : String} (h : file_name a = file_name b) : a = b := by
  unfold file_name at h
  have hd := congrArg String.data h
  simp only [String.data_append] at hd
  exact String.ext (List.append_cancel_right hd)

theorem file_path_inj {a b : String} (h : file_path a = file_path b) : a = b := by
  unfold file_path at h
  have hd := congrArg String.data h
  simp only [String.data_append] at hd
  exact file_name_inj (String.ext (List.append_cancel_left hd))

theorem genLoop_ok (names : List String) (env : FS)
    (h : ∀ n ∈ names, env.writeOk (file_path n) = true) :
    genLoop names env =
      { fs := writeAll env names,
        writes := names.map (fun n => (file_path n, renderTotal n)),
        output := names.map (fun n => perFileMsg (file_path n)),
        createdDir := false, err := none } := by
  induction names generalizing env with
  | nil => rfl
  | cons m rest ih =>
    have hm : env.writeOk (file_path m) = true := h m (List.mem_cons_self m rest)
    have hrest : ∀ n ∈ rest, (fsWrite env (file_path m) (renderTotal m)).writeOk (file_path n) = true :=
      fun n hn => h n (List.mem_cons_of_mem m hn)
    simp only [genLoop, renderContent_eq, hm, if_true]
    rw [ih _ hrest]
    rfl

theorem fsLookup_writeAll_frame (names : List String) (env : FS) (p : String)
    (h : ∀ n ∈ names, p ≠ file_path n) :
    fsLookup (writeAll env names) p = fsLookup env p := by
  induction names generalizing env with
  | nil => rfl
  | cons m rest ih =>
    have hm : p ≠ file_path m := h m (List.mem_cons_self m rest)
    have hrest : ∀ n ∈ rest, p ≠ file_path n := fun n hn => h n (List.mem_cons_of_mem m hn)
    calc fsLookup (writeAll (fsWrite env (file_path m) (renderTotal m)) rest) p
        = fsLookup (fsWrite env (file_path m) (renderTotal m)) p := ih _ hrest
      _ = fsLookup env p := fsLookup_fsWrite_ne _ _ _ _ hm

theorem fsLookup_writeAll_mem (names : List String) (env : FS) (n : String)
    (h : n ∈ names) :
    fsLookup (writeAll env names) (file_path n) = some (renderTotal n) := by
  induction names generalizing env with
  | nil => cases h
  | cons m rest ih =>
    by_cases hr : n ∈ rest
    · exact ih _ hr
    · have hnm : n = m := by
        rcases List.mem_cons.mp h with h1 | h2
        · exact h1
        · exact absurd h2 hr
      subst hnm
      have hframe : ∀ k ∈ rest, file_path n ≠ file_path k := by
        intro k hk hEq
        exact hr (file_path_inj hEq ▸ hk)
      calc fsLookup (writeAll (fsWrite env (file_path n) (renderTotal n)) rest) (file_path n)
          = fsLookup (fsWrite env (file_path n) (renderTotal n)) (file_path n) :=
            fsLookup_writeAll_frame _ _ _ hframe
        _ = some (renderTotal n) := fsLookup_fsWrite_self _ _ _

theorem genLoop_fail (good rest : List String) (bad : String) (env : FS)
    (hgood : ∀ n ∈ good, env.writeOk (file_path n) = true)
    (hbad : env.writeOk (file_path bad) = false) :
    genLoop (good ++ bad :: rest) env =
      { fs := writeAll env good,
        writes := good.map (fun n => (file_path n, renderTotal n)),
        output := good.map (fun n => perFileMsg (file_path n)),
        createdDir := false,
        err := some (IOError.writeError (file_path bad)) } := by
  induction good generalizing env with
  | nil =>
    simp only [List.nil_append, genLoop, renderContent_eq, hbad]
    rfl
  | cons m gr ih =>
    have hm : env.writeOk (file_path m) = true := hgood m (List.mem_cons_self m gr)
    simp only [List.cons_append, genLoop, renderContent_eq, hm, if_true, List.append_eq]
    rw [ih (fsWrite env (file_path m) (renderTotal m))
      (fun n hn => hgood n (List.mem_cons_of_mem m hn)) hbad]
    rfl

theorem envDir_files (env : FS) : (envDir env).files = env.files := by
  unfold envDir
  split <;> rfl

theorem envDir_writeOk (env : FS) : (envDir env).writeOk = env.writeOk := by
  unfold envDir
  split <;> rfl

theorem fsLookup_envDir (env : FS) (p : String) :
    fsLookup (envDir env) p = fsLookup env p := by
  unfold fsLookup
  rw [envDir_files]

theorem generate_files_with_ok (names : List String) (env : FS) (h : okEnv env) :
    generate_files_with names env =
      { fs := writeAll (envDir env) names,
        writes := names.map (fun n => (file_path n, renderTotal n)),
        output := (if env.dirExists then [] else [createdMsg]) ++
          startMsg :: names.map (fun n => perFileMsg (file_path n)) ++ [completeMsg],
        createdDir := !env.dirExists,
        err := none } := by
  obtain ⟨hmk, hw⟩ := h
  unfold generate_files_with
  cases hd : env.dirExists with
  | true =>
    simp only [if_true]
    rw [genLoop_ok names env (fun n _ => hw _)]
    simp [envDir, hd, completeMsgs]
  | false =>
    rw [if_neg (by simp), if_pos hmk]
    rw [genLoop_ok names { env with dirExists := true } (fun n _ => hw _)]
    simp [envDir, hd, completeMsgs]

/-- Claim C1: for every component name the generated file content is a pure function of that name alone — under any two environments in which all operations succeed, a run over the same name list puts the same byte-identical content, `renderTotal name`, at that name's path; nothing run-dependent enters the rendering. -/
theorem C1_content_pure_function_of_name (names : List String) (env1 env2 : FS)
    (name : String) (h1 : okEnv env1) (h2 : okEnv env2) (hmem : name ∈ names) :
    fsLookup (generate_files_with names env1).fs (file_path name) = some (renderTotal name) ∧
    fsLookup (generate_files_with names env1).fs (file_path name) =
      fsLookup (generate_files_with names env2).fs (file_path name) := by
  have key : ∀ env : FS, okEnv env →
      fsLookup (generate_files_with names env).fs (file_path name) = some (renderTotal name) := by
    intro env h
    rw [generate_files_with_ok names env h]
    exact fsLookup_writeAll_mem names (envDir env) name hmem
  exact ⟨key env1 h1, (key env1 h1).trans (key env2 h2).symm⟩

/-- Witness for C1 at the list containing alert and badge, over two different all-succeeding environments. -/
theorem C1_content_pure_function_of_name_witness :
    okEnv envReady ∧ okEnv envFresh ∧ "badge" ∈ ["alert", "badge"] ∧
    (fsLookup (generate_files_with ["alert", "badge"] envReady).fs (file_path "badge") =
        some (renderTotal "badge") ∧
      fsLookup (generate_files_with ["alert", "badge"] envReady).fs (file_path "badge") =
        fsLookup (generate_files_with ["alert", "badge"] envFresh).fs (file_path "badge")) :=
  ⟨⟨rfl, fun _ => rfl⟩, ⟨rfl, fun _ => rfl⟩, by decide,
    C1_content_pure_function_of_name ["alert", "badge"] envReady envFresh "badge"
      ⟨rfl, fun _ => rfl⟩ ⟨rfl, fun _ => rfl⟩ (by decide)⟩

/-- Claim C2 counterexample: at the name aB the code produces Ab (Python `str.capitalize` lowercases the tail), not the AB the claim predicts, so the capitalization step does NOT leave every character after the first unchanged. -/
theorem C2_capitalize_counterexample :
    (str_capitalize "aB" == "AB") = false ∧ str_capitalize "aB" = "Ab" := by
  constructor
  · decide
  · decide

/-- Claim C2 as amended: the capitalization step uppercases the first character and lowercases every other character (so a tail character is unchanged only when already lowercase); on the all-lowercase examples it gives Toggle and Alert. -/
theorem C2_capitalize_amended :
    str_capitalize "toggle" = "Toggle" ∧ str_capitalize "alert" = "Alert" ∧
    ∀ s : String,
      (str_capitalize s).data.head? = s.data.head?.map Char.toUpper ∧
      (str_capitalize s).data.tail = s.data.tail.map Char.toLower := by
  refine ⟨by decide, by decide, ?_⟩
  intro s
  obtain ⟨data⟩ := s
  cases data with
  | nil => exact ⟨rfl, rfl⟩
  | cons c cs => exact ⟨rfl, rfl⟩

/-- Claim C3: in an environment where all operations succeed, a run performs exactly one write per name of the list, in list order, each with the rendered template for that name, and afterwards the target directory holds that content at each name's path. -/
theorem C3_one_file_per_name_in_list_order (names : List String) (env : FS)
    (h : okEnv env) :
    (generate_files_with names env).writes =
      names.map (fun n => (file_path n, renderTotal n)) ∧
    ∀ n ∈ names,
      fsLookup (generate_files_with names env).fs (file_path n) = some (renderTotal n) := by
  rw [generate_files_with_ok names env h]
  exact ⟨rfl, fun n hn => fsLookup_writeAll_mem names (envDir env) n hn⟩

/-- Witness for C3 at the two-name list alert, badge in a fresh all-succeeding environment. -/
theorem C3_one_file_per_name_in_list_order_witness :
    okEnv envFresh ∧
    (generate_files_with ["alert", "badge"] envFresh).writes =
      ["alert", "badge"].map (fun n => (file_path n, renderTotal n)) ∧
    fsLookup (generate_files_with ["alert", "badge"] envFresh).fs (file_path "alert") =
      some (renderTotal "alert") :=
  ⟨⟨rfl, fun _ => rfl⟩,
    (C3_one_file_per_name_in_list_order ["alert", "badge"] envFresh ⟨rfl, fun _ => rfl⟩).1,
    (C3_one_file_per_name_in_list_order ["alert", "badge"] envFresh ⟨rfl, fun _ => rfl⟩).2
      "alert" (by decide)⟩

/-- Claim C4: the generated file name is the name followed by _page and the fixed .dart extension, and the referenced preview file name is the name followed by _preview and the same extension. -/
theorem C4_derived_file_names (name : String) :
    file_name name = name ++ "_page" ++ ".dart" ∧
    preview_file_name name = name ++ "_preview" ++ ".dart" := by
  constructor
  · unfold file_name
    rw [String.append_assoc]
    exact congrArg (fun t => name ++ t) (by decide)
  · unfold preview_file_name
    rw [String.append_assoc]
    exact congrArg (fun t => name ++ t) (by decide)

/-- Claim C5: for the name list containing only badge, after running in an all-succeeding environment the file badge_page.dart exists in the target directory with the rendered content, its class-declaration line contains the identifier BadgePage, and its import line references badge_preview.dart. -/
theorem C5_badge_end_to_end :
    fsLookup (generate_files_with ["badge"] envReady).fs (file_path "badge") =
      some (renderTotal "badge") ∧
    (splitLines (renderTotal "badge").data).any
      (fun l => ("class ".data).isPrefixOf l && containsSlice ("BadgePage".data) l) = true ∧
    (splitLines (renderTotal "badge").data).any
      (fun l => ("import ".data).isPrefixOf l &&
        containsSlice ("badge_preview.dart".data) l) = true := by
  refine ⟨by decide, by decide, by decide⟩

/-- Claim C6: when the directory creation fails the run stops at once with the error surfaced and nothing written or printed; when the write of one name fails, the error is surfaced, exactly the names before it were written (one attempt each, in order, no retry), the per-file lines stop there with no completion banner, and each file written before the failure still holds its content. -/
theorem C6_io_error_aborts_and_surfaces :
    (∀ (names : List String) (env : FS), env.dirExists = false → env.mkdirOk = false →
      generate_files_with names env =
        { fs := env, writes := [], output := [], createdDir := false,
          err := some IOError.mkdirError }) ∧
    (∀ (good rest : List String) (bad : String) (env : FS),
      env.dirExists = true →
      (∀ n ∈ good, env.writeOk (file_path n) = true) →
      env.writeOk (file_path bad) = false →
      (generate_files_with (good ++ bad :: rest) env).err =
        some (IOError.writeError (file_path bad)) ∧
      (generate_files_with (good ++ bad :: rest) env).writes =
        good.map (fun n => (file_path n, renderTotal n)) ∧
      (generate_files_with (good ++ bad :: rest) env).output =
        startMsg :: good.map (fun n => perFileMsg (file_path n)) ∧
      ∀ n ∈ good,
        fsLookup (generate_files_with (good ++ bad :: rest) env).fs (file_path n) =
          some (renderTotal n)) := by
  constructor
  · intro names env h1 h2
    unfold generate_files_with
    rw [if_neg (by simp [h1]), if_neg (by simp [h2])]
  · intro good rest bad env hdir hgood hbad
    unfold generate_files_with
    rw [if_pos hdir, genLoop_fail good rest bad env hgood hbad]
    refine ⟨rfl, rfl, by simp [completeMsgs], ?_⟩
    intro n hn
    exact fsLookup_writeAll_mem good env n hn

/-- Witness for C6: a denied directory creation, and a run over alert, badge, card, divider in which writing the card page is denied. -/
theorem C6_io_error_aborts_and_surfaces_witness :
    (envNoMkdir.dirExists = false ∧ envNoMkdir.mkdirOk = false ∧
      generate_files_with ["alert"] envNoMkdir =
        { fs := envNoMkdir, writes := [], output := [], createdDir := false,
          err := some IOError.mkdirError }) ∧
    (envDenyCard.dirExists = true ∧
      envDenyCard.writeOk (file_path "card") = false ∧
      (generate_files_with (["alert", "badge"] ++ "card" :: ["divider"]) envDenyCard).err =
        some (IOError.writeError (file_path "card")) ∧
      fsLookup
          (generate_files_with (["alert", "badge"] ++ "card" :: ["divider"]) envDenyCard).fs
          (file_path "alert") =
        some (renderTotal "alert")) :=
  ⟨⟨rfl, rfl, C6_io_error_aborts_and_surfaces.1 ["alert"] envNoMkdir rfl rfl⟩,
   ⟨rfl, by decide,
    (C6_io_error_aborts_and_surfaces.2 ["alert", "badge"] ["divider"] "card" envDenyCard rfl
      (by decide) (by decide)).1,
    (C6_io_error_aborts_and_surfaces.2 ["alert", "badge"] ["divider"] "card" envDenyCard rfl
      (by decide) (by decide)).2.2.2 "alert" (by decide)⟩⟩

/-- Claim C7: template rendering fails with a missing-key error exactly when some placeholder occurring in the template is unbound by the substitution set; when every occurring placeholder is bound, rendering succeeds and is the literal textual substitution. -/
theorem C7_substitution_missing_key_iff (cs : List Chunk) (m : List (String × String)) :
    (substituteChunks cs m = none ↔ ∃ k, Chunk.ph k ∈ cs ∧ lookupKey m k = none) ∧
    ((cs.all fun c => match c with
        | Chunk.ph k => (lookupKey m k).isSome
        | Chunk.lit _ => true) = true →
      substituteChunks cs m = some (literalSubstitution cs m)) := by
  induction cs with
  | nil =>
    refine ⟨⟨fun h => ?_, fun h => ?_⟩, fun _ => rfl⟩
    · simp [substituteChunks] at h
    · rcases h with ⟨k, hk, _⟩
      cases hk
  | cons c rest ih =>
    cases c with
    | lit s =>
      constructor
      · rw [show substituteChunks (Chunk.lit s :: rest) m =
            (substituteChunks rest m).map (fun r => s ++ r) from rfl]
        rw [Option.map_eq_none', ih.1]
        constructor
        · rintro ⟨k, hk, hlk⟩
          exact ⟨k, List.mem_cons_of_mem _ hk, hlk⟩
        · rintro ⟨k, hk, hlk⟩
          rcases List.mem_cons.mp hk with h1 | h2
          · cases h1
          · exact ⟨k, h2, hlk⟩
      · intro hall
        have hrest : (rest.all fun c => match c with
            | Chunk.ph k => (lookupKey m k).isSome
            | Chunk.lit _ => true) = true := by
          rw [List.all_cons, Bool.and_eq_true] at hall
          exact hall.2
        have h2 := ih.2 hrest
        rw [show substituteChunks (Chunk.lit s :: rest) m =
            (substituteChunks rest m).map (fun r => s ++ r) from rfl, h2]
        rfl
    | ph k =>
      cases hlk : lookupKey m k with
      | none =>
        constructor
        · rw [show substituteChunks (Chunk.ph k :: rest) m =
              (match lookupKey m k with
                | none => none
                | some v => (substituteChunks rest m).map (fun r => v ++ r)) from rfl, hlk]
          exact ⟨fun _ => ⟨k, List.mem_cons_self _ _, hlk⟩, fun _ => rfl⟩
        · intro hall
          simp [List.all_cons, hlk] at hall
      | some v =>
        constructor
        · rw [show substituteChunks (Chunk.ph k :: rest) m =
              (match lookupKey m k with
                | none => none
                | some v => (substituteChunks rest m).map (fun r => v ++ r)) from rfl, hlk]
          rw [Option.map_eq_none', ih.1]
          constructor
          · rintro ⟨k2, hk2, hlk2⟩
            exact ⟨k2, List.mem_cons_of_mem _ hk2, hlk2⟩
          · rintro ⟨k2, hk2, hlk2⟩
            rcases List.mem_cons.mp hk2 with h1 | h2
            · injection h1 with hkk
              rw [hkk, hlk] at hlk2
              cases hlk2
            · exact ⟨k2, h2, hlk2⟩
        · intro hall
          have hrest : (rest.all fun c => match c with
              | Chunk.ph k => (lookupKey m k).isSome
              | Chunk.lit _ => true) = true := by
            rw [List.all_cons, Bool.and_eq_true] at hall
            exact hall.2
          have h2 := ih.2 hrest
          rw [show substituteChunks (Chunk.ph k :: rest) m =
              (match lookupKey m k with
                | none => none
                | some v => (substituteChunks rest m).map (fun r => v ++ r)) from rfl, hlk, h2]
          rw [show literalSubstitution (Chunk.ph k :: rest) m =
              (lookupKey m k).getD "" ++ literalSubstitution rest m from rfl, hlk]
          rfl

/-- Witness for C7 at the real template and the substitution set of badge, where every placeholder is bound. -/
theorem C7_substitution_missing_key_iff_witness :
    ((DART_TEMPLATE.all fun c => match c with
        | Chunk.ph k => (lookupKey (substitutions "badge") k).isSome
        | Chunk.lit _ => true) = true) ∧
    substituteChunks DART_TEMPLATE (substitutions "badge") =
      some (literalSubstitution DART_TEMPLATE (substitutions "badge")) :=
  ⟨by decide,
    (C7_substitution_missing_key_iff DART_TEMPLATE (substitutions "badge")).2 (by decide)⟩

/-- Claim C8: a run against an already-existing target directory raises no error, does not recreate the directory, and leaves every path other than the generated page paths of the listed names exactly as it was. -/
theorem C8_existing_directory_frame (names : List String) (env : FS)
    (hdir : env.dirExists = true) (h : okEnv env) :
    (generate_files_with names env).err = none ∧
    (generate_files_with names env).createdDir = false ∧
    ∀ p : String, (∀ n ∈ names, p ≠ file_path n) →
      fsLookup (generate_files_with names env).fs p = fsLookup env p := by
  rw [generate_files_with_ok names env h]
  refine ⟨rfl, by simp [hdir], ?_⟩
  intro p hp
  calc fsLookup (writeAll (envDir env) names) p
      = fsLookup (envDir env) p := fsLookup_writeAll_frame names (envDir env) p hp
    _ = fsLookup env p := fsLookup_envDir env p

/-- Witness for C8: the directory already exists and holds an unrelated file, which a run over alert leaves untouched. -/
theorem C8_existing_directory_frame_witness :
    envKeep.dirExists = true ∧ okEnv envKeep ∧
    fsLookup (generate_files_with ["alert"] envKeep).fs
        "examples/deepyr_example/lib/pages/component_routes/notes.txt" =
      fsLookup envKeep "examples/deepyr_example/lib/pages/component_routes/notes.txt" :=
  ⟨rfl, ⟨rfl, fun _ => rfl⟩,
    (C8_existing_directory_frame ["alert"] envKeep rfl ⟨rfl, fun _ => rfl⟩).2.2
      "examples/deepyr_example/lib/pages/component_routes/notes.txt" (by decide)⟩

/-- Claim C9 evaluation: the banners the code prints begin and end with the literal two characters backslash and n (the source strings are escaped as backslash-backslash-n), not with a blank line; with the empty name list both banners appear and no per-file line, and with one name a single per-file line appears between them. -/
theorem C9_banner_literal_backslash_eval :
    (generate_files_with [] envReady).output =
      ["\\nStarting file generation...", "\\nFile generation complete!\\n"] ∧
    (generate_files_with [] envFresh).output =
      ["Created directory: examples/deepyr_example/lib/pages/component_routes",
       "\\nStarting file generation...", "\\nFile generation complete!\\n"] ∧
    startMsg.data.head? = some '\\' ∧
    (generate_files_with ["badge"] envReady).output =
      ["\\nStarting file generation...",
       "  -> Successfully created examples/deepyr_example/lib/pages/component_routes/badge_page.dart",
       "\\nFile generation complete!\\n"] := by
  refine ⟨rfl, rfl, rfl, rfl⟩

/-- Claim C10: rendering never raises a missing-key error — for every name the substitution succeeds; the template's placeholders are only preview_file_name and component_name_pascal_case; the bound file_name key is never referenced by any placeholder; and for every configured component name the generated content does not contain the generated file's own name. -/
theorem C10_render_total_file_name_unused :
    (∀ name : String, renderContent name = some (renderTotal name)) ∧
    (DART_TEMPLATE.all fun c => match c with
      | Chunk.ph k => k == "preview_file_name" || k == "component_name_pascal_case"
      | Chunk.lit _ => true) = true ∧
    (DART_TEMPLATE.all fun c => match c with
      | Chunk.ph k => !(k == "file_name")
      | Chunk.lit _ => true) = true ∧
    (∀ name : String, lookupKey (substitutions name) "file_name" = some (file_name name)) ∧
    COMPONENTS.all
      (fun n => !(containsSlice (file_name n).data (renderTotal n).data)) = true :=
  ⟨fun _ => rfl, by decide, by decide, fun _ => rfl, by decide⟩
